import Mathlib

/-!
# Verification of the label-sheet quadrant layout tool

A shallow embedding of the label-sheet repository (src/processor.py,
src/layout.py, src/core.py, src/config.py) together with proofs and
refutations of the specification's claims about it.

Conventions of the embedding:
* physical lengths (points) are rationals (`ℚ`), mirroring the exact real
  arithmetic the spec describes for the geometry;
* pixel dimensions are naturals;
* a PIL image is a record of its pixel width, height and pixel rows;
* the reportlab canvas is modelled as the trace of drawing operations
  (`CanvasOp`) issued to it, and the filesystem of temporary raster files
  as the list of temp-file identifiers currently existing;
* fallible operations return `Except`.
-/

/-- A raster image: pixel dimensions plus pixel rows (PIL `Image`). -/
structure Image where
  width : ℕ
  height : ℕ
  pixels : List (List ℕ)
deriving DecidableEq, Repr

namespace ImageProcessor

/-- Rotation of a pixel matrix by 90° counter-clockwise
(PIL `Image.transpose(ROTATE_90)`). -/
def rot90ccw (m : List (List ℕ)) : List (List ℕ) := m.transpose.reverse

/-- Rotation of a pixel matrix by 180° (PIL `Image.transpose(ROTATE_180)`). -/
def rot180 (m : List (List ℕ)) : List (List ℕ) := (m.map List.reverse).reverse

/-- Rotation of a pixel matrix by 90° clockwise
(PIL `Image.transpose(ROTATE_270)`). -/
def rot90cw (m : List (List ℕ)) : List (List ℕ) := m.transpose.map List.reverse

/-- Models the external PIL call `image.rotate(rotation, expand=True)`.
PIL first normalises the angle modulo 360 (Python's `%` on a positive
modulus, i.e. `Int.emod` here) and then takes exact transpose fast paths
for 0, 90, 180 and 270 degrees, which swap or keep the pixel dimensions
exactly.  Angles that are not multiples of 90 go through PIL's
floating-point affine transform; that branch is outside every claim (the
repository's presets and documented rotations use only multiples of 90)
and is left as the identity here rather than pretending to model the
float arithmetic. -/
def pilRotateExpand (image : Image) (rotation : ℤ) : Image :=
  let a := rotation % 360
  if a = 0 then image
  else if a = 90 then ⟨image.height, image.width, rot90ccw image.pixels⟩
  else if a = 180 then ⟨image.width, image.height, rot180 image.pixels⟩
  else if a = 270 then ⟨image.height, image.width, rot90cw image.pixels⟩
  else image

/-- Model of `ImageProcessor.rotate_image` (src/processor.py): a rotation of exactly
0 returns the image unchanged; otherwise the image is rotated
counter-clockwise with `expand=True`. -/
def rotate_image (image : Image) (rotation : ℤ) : Image :=
  if rotation = 0 then image else pilRotateExpand image rotation

/-- Model of `ImageProcessor.fit_to_box` (src/processor.py): compute the dimensions
that fit the image inside `max_width × max_height` preserving aspect
ratio.  Returns the image itself (unresized) together with the target
draw width and height. -/
def fit_to_box (image : Image) (max_width max_height : ℚ) :
    Image × ℚ × ℚ :=
  let img_aspect : ℚ := (image.width : ℚ) / (image.height : ℚ)
  let box_aspect : ℚ := max_width / max_height
  if img_aspect > box_aspect then
    (image, max_width, max_width / img_aspect)
  else
    (image, max_height * img_aspect, max_height)

end ImageProcessor

/-- Model of `QuadrantConfig` (src/layout.py): configuration of one quadrant. -/
structure QuadrantConfig where
  image : Option Image := none
  rotation : ℤ := 0
deriving DecidableEq, Repr

/-- The state of the `LayoutEngine` after `__init__` (src/layout.py):
margin converted from inches to points, grid flag, letter page size and
the derived quadrant size. -/
structure LayoutEngine where
  margin : ℚ
  show_grid : Bool
  page_width : ℚ
  page_height : ℚ
  quadrant_width : ℚ
  quadrant_height : ℚ
deriving DecidableEq, Repr

/-- A configuration error (the spec's `InvalidConfiguration` class).  The
constructor exists so that construction of the engine can be given the
`Except` type a validating constructor would have; the embedded
constructor below never produces it, mirroring the source. -/
inductive ConfigError where
  | invalidConfiguration (message : String)
deriving DecidableEq, Repr

namespace LayoutEngine

/-- Model of `LayoutEngine.__init__` (src/layout.py): store margin in points
(1 inch = 72 points), the grid flag, the letter page size 612×792 and the
half-page quadrant size.  The body contains no validation and no raise
statement, so the embedding always returns `Except.ok`. -/
def init (margin_inches : ℚ) (show_grid : Bool) :
    Except ConfigError LayoutEngine :=
  .ok { margin := margin_inches * 72
        show_grid := show_grid
        page_width := 612
        page_height := 792
        quadrant_width := 612 / 2
        quadrant_height := 792 / 2 }

/-- The engine value produced by `init` (total projection of the always
successful construction). -/
def build (margin_inches : ℚ) (show_grid : Bool) : LayoutEngine :=
  { margin := margin_inches * 72
    show_grid := show_grid
    page_width := 612
    page_height := 792
    quadrant_width := 612 / 2
    quadrant_height := 792 / 2 }

end LayoutEngine

/-- One drawing operation issued to the reportlab canvas. -/
inductive CanvasOp where
  /-- Operation `c.drawImage(temp_file, x, y, width=w, height=h, ...)`:
  the raster stored in `tempFile` drawn with lower-left corner `(x, y)`
  and target size `w × h`. -/
  | drawImage (tempFile : ℕ) (img : Image) (x y w h : ℚ)
  /-- Operation `c.setStrokeColorRGB(r, g, b)`. -/
  | setStrokeColorRGB (r g b : ℚ)
  /-- Operation `c.setLineWidth(w)`. -/
  | setLineWidth (w : ℚ)
  /-- Operation `c.line(x1, y1, x2, y2)`. -/
  | line (x1 y1 x2 y2 : ℚ)
deriving DecidableEq, Repr

/-- Whether a canvas operation is an image draw. -/
def CanvasOp.isDrawImage : CanvasOp → Bool
  | .drawImage _ _ _ _ _ _ => true
  | _ => false

/-- The geometry `_draw_quadrant` computes for one occupied quadrant:
the rotated image it saves and draws, the fit-to-box draw size and the
centered offsets. -/
structure QuadGeom where
  image : Image
  draw_width : ℚ
  draw_height : ℚ
  x_offset : ℚ
  y_offset : ℚ
deriving DecidableEq, Repr

/-- The geometric part of `LayoutEngine._draw_quadrant` (src/layout.py):
rotate, compute the drawable area of the quadrant, fit the rotated image
to it, and center the result in the quadrant at page position
`(quad_x, quad_y)`. -/
def quadGeom (e : LayoutEngine) (img0 : Image) (rotation : ℤ)
    (quad_x quad_y : ℕ) : QuadGeom :=
  let image := ImageProcessor.rotate_image img0 rotation
  let available_width := e.quadrant_width - 2 * e.margin
  let available_height := e.quadrant_height - 2 * e.margin
  let r := ImageProcessor.fit_to_box image available_width available_height
  let draw_width := r.2.1
  let draw_height := r.2.2
  { image := image
    draw_width := draw_width
    draw_height := draw_height
    x_offset := (quad_x : ℚ) * e.quadrant_width + e.margin +
      (available_width - draw_width) / 2
    y_offset := (quad_y : ℚ) * e.quadrant_height + e.margin +
      (available_height - draw_height) / 2 }

/-- The environment a render call runs in: which external calls fail.
`drawImageFails t` — `c.drawImage` raises for the draw using temp file
`t`; `saveFails` — `c.save()` raises; `removeFails t` — `os.remove(t)`
raises. -/
structure Env where
  drawImageFails : ℕ → Bool
  saveFails : Bool
  removeFails : ℕ → Bool

/-- The environment in which every external call succeeds. -/
def noFailEnv : Env :=
  { drawImageFails := fun _ => false
    saveFails := false
    removeFails := fun _ => false }

/-- Mutable state threaded through a render call: the canvas trace, the
temp files currently existing on disk, the Python `temp_files` list, the
next fresh temp-file identifier, and (observation) the geometry computed
for each drawn slot. -/
structure RenderState where
  ops : List CanvasOp
  fs : List ℕ
  tempFiles : List ℕ
  next : ℕ
  geoms : List (ℕ × QuadGeom)
deriving DecidableEq, Repr

/-- The state at the start of a render call. -/
def initialRenderState : RenderState :=
  { ops := [], fs := [], tempFiles := [], next := 0, geoms := [] }

/-- One entry of the `quadrants` list in `generate_pdf`: slot number
(1–4, observation only), the optional config, and the quadrant selector
`(quad_x, quad_y)`. -/
abbrev Slot := ℕ × Option QuadrantConfig × ℕ × ℕ

/-- The literal `quadrants` list built in `generate_pdf` (src/layout.py):
`[(q1, 0, 1), (q2, 1, 1), (q3, 0, 0), (q4, 1, 0)]`. -/
def pdfSlots (q1 q2 q3 q4 : Option QuadrantConfig) : List Slot :=
  [(1, q1, 0, 1), (2, q2, 1, 1), (3, q3, 0, 0), (4, q4, 1, 0)]

/-- The `for config, quad_x, quad_y in quadrants` loop of `generate_pdf`,
with `_draw_quadrant` inlined.  For each occupied slot (config present
and image present): compute the geometry, create a fresh temp file and
save the rotated image to it (the file now exists on disk), then issue
`c.drawImage`.  If the draw raises, the exception propagates (`false`
flag) with the temp file already on disk and not yet in `temp_files`;
otherwise the temp file is appended to `temp_files` and the loop
continues. -/
def drawSlots (env : Env) (e : LayoutEngine) :
    List Slot → RenderState → RenderState × Bool
  | [], s => (s, true)
  | (slotNo, cfg, quad_x, quad_y) :: rest, s =>
    match cfg with
    | none => drawSlots env e rest s
    | some c =>
      match c.image with
      | none => drawSlots env e rest s
      | some img =>
        let g := quadGeom e img c.rotation quad_x quad_y
        let t := s.next
        if env.drawImageFails t then
          ({ s with fs := s.fs ++ [t], next := t + 1 }, false)
        else
          drawSlots env e rest
            { ops := s.ops ++
                [.drawImage t g.image g.x_offset g.y_offset
                  g.draw_width g.draw_height]
              fs := s.fs ++ [t]
              tempFiles := s.tempFiles ++ [t]
              next := t + 1
              geoms := s.geoms ++ [(slotNo, g)] }

/-- Model of `LayoutEngine._draw_grid` (src/layout.py): light gray stroke of
width 1, a vertical line at half the page width spanning the full page
height, and a horizontal line at half the page height spanning the full
page width. -/
def gridOps (e : LayoutEngine) : List CanvasOp :=
  [ .setStrokeColorRGB (8/10) (8/10) (8/10)
  , .setLineWidth 1
  , .line (e.page_width / 2) 0 (e.page_width / 2) e.page_height
  , .line 0 (e.page_height / 2) e.page_width (e.page_height / 2) ]

/-- How a render call ends. -/
inductive RenderOutcome where
  /-- The `c.save()` call completed and the cleanup loop ran. -/
  | ok
  /-- a `c.drawImage` call raised and the exception propagated. -/
  | drawRaised
  /-- `c.save()` raised and the exception propagated. -/
  | saveRaised
deriving DecidableEq, Repr

/-- The observable result of `generate_pdf`: how it ended, the canvas
trace, the temp files still existing on disk when the call returns, and
the geometry computed per drawn slot. -/
structure RenderResult where
  outcome : RenderOutcome
  ops : List CanvasOp
  fs : List ℕ
  geoms : List (ℕ × QuadGeom)
deriving DecidableEq, Repr

/-- Model of `LayoutEngine.generate_pdf` (src/layout.py): draw the occupied
quadrants in the fixed order Q1, Q2, Q3, Q4; draw the grid if enabled;
`c.save()`; then — only reached on this success path, there is no
`try/finally` around the body — remove each file in `temp_files`,
swallowing removal failures. -/
def generate_pdf (env : Env) (e : LayoutEngine)
    (q1 q2 q3 q4 : Option QuadrantConfig) : RenderResult :=
  let (s, ok) := drawSlots env e (pdfSlots q1 q2 q3 q4) initialRenderState
  if ok then
    let s := if e.show_grid then { s with ops := s.ops ++ gridOps e } else s
    if env.saveFails then
      { outcome := .saveRaised, ops := s.ops, fs := s.fs, geoms := s.geoms }
    else
      let fs := s.tempFiles.foldl
        (fun fs t => if env.removeFails t then fs else fs.filter (· ≠ t))
        s.fs
      { outcome := .ok, ops := s.ops, fs := fs, geoms := s.geoms }
  else
    { outcome := .drawRaised, ops := s.ops, fs := s.fs, geoms := s.geoms }

/-- An environment for exercising the error exit of `generate_pdf`: the
second `c.drawImage` call (the one using temp file 1) raises, every
other external call succeeds. -/
def failSecondDrawEnv : Env :=
  { drawImageFails := fun t => t == 1
    saveFails := false
    removeFails := fun _ => false }

/-- An error raised by `InputHandler.load_pdf_page` (src/core.py).  Each
constructor carries the data interpolated into the corresponding Python
exception message. -/
inductive PageError where
  /-- Python `FileNotFoundError: PDF file not found: {pdf_path}`. -/
  | notFound (pdf_path : String)
  /-- Python `ValueError: PDF has no pages: {pdf_path}`. -/
  | noPages (pdf_path : String)
  /-- Python `ValueError: PDF doesn't have a second-last page: {pdf_path}`. -/
  | noSecondLast (pdf_path : String)
  /-- Python `ValueError: Page number {page_num} out of range (PDF has
  {pages} pages)` — the raise statement inside the `try` block. -/
  | outOfRange (page_num : ℤ) (pages : ℕ)
  /-- Python `ValueError` raised by `int(page_spec)` when the spec is not
  an integer literal — raised inside the `try` block. -/
  | parseFailed (spec : String)
  /-- Python `ValueError: Invalid page specification: {spec}. Use 'last',
  'second-last', or a page number (1-{pages})` — the raise statement in
  the `except ValueError` handler. -/
  | invalidSpec (spec : String) (pages : ℕ)
deriving DecidableEq, Repr

namespace InputHandler

/-- Digit-sequence value of a character list (no digits → failure):
helper for modelling Python `int()`. -/
def parseDigits (cs : List Char) : Option ℕ :=
  if cs.isEmpty then none
  else cs.foldl (fun acc c =>
    acc.bind fun n =>
      if c.isDigit then some (10 * n + (c.toNat - '0'.toNat)) else none)
    (some 0)

/-- Model of Python `int(page_spec)`: an optional minus sign followed by
decimal digits, `ValueError` (here `none`) otherwise.  (Python also
accepts surrounding whitespace and a plus sign; no claim involves
those.) -/
def parseInt (s : String) : Option ℤ :=
  match s.data with
  | '-' :: rest => (parseDigits rest).map fun n => -(n : ℤ)
  | cs => (parseDigits cs).map fun n => (n : ℤ)

/-- A placeholder image value for the (never reached) out-of-bounds case
of guarded list indexing. -/
def dummyImage : Image := ⟨0, 0, []⟩

/-- The body of the `try` block in `load_pdf_page` (src/core.py):
`page_num = int(page_spec)` (modelled by `parseInt`), then the 0/positive/negative
index computation, the range check that raises the out-of-range
`ValueError`, and the indexing `images[page_index]`. -/
def pageTry (images : List Image) (page_spec : String) :
    Except PageError Image :=
  match parseInt page_spec with
  | none => .error (.parseFailed page_spec)
  | some page_num =>
    let page_index : ℤ :=
      if page_num = 0 then 0
      else if page_num > 0 then page_num - 1
      else (images.length : ℤ) + page_num
    if page_index < 0 ∨ (images.length : ℤ) ≤ page_index then
      .error (.outOfRange page_num images.length)
    else
      .ok (images.getD page_index.toNat dummyImage)

/-- Model of `InputHandler.load_pdf_page` (src/core.py).  `pdf_exists`
models `pdf_path.exists()` and `images` the list returned by
`convert_from_path` (one raster per PDF page).  The numeric branch runs
`pageTry` inside `try ... except ValueError`, and the handler replaces
every `ValueError` escaping the `try` body — including the out-of-range
one raised there — with the invalid-page-specification `ValueError`. -/
def load_pdf_page (pdf_exists : Bool) (pdf_path : String)
    (images : List Image) (page_spec : String) : Except PageError Image :=
  if pdf_exists = false then .error (.notFound pdf_path)
  else if images.isEmpty then .error (.noPages pdf_path)
  else if page_spec = "last" then
    .ok (images.getD (images.length - 1) dummyImage)
  else if page_spec = "second-last" then
    if images.length < 2 then .error (.noSecondLast pdf_path)
    else .ok (images.getD (images.length - 2) dummyImage)
  else
    match pageTry images page_spec with
    | .ok img => .ok img
    | .error _ => .error (.invalidSpec page_spec images.length)

end InputHandler

/-- One quadrant entry of a preset definition (src/config.py): the
`source` string plus the optional `page` and `rotation` fields read with
`config.get("page", "last")` and `config.get("rotation", 0)`. -/
structure QuadPreset where
  source : String
  page : Option String
  rotation : Option ℤ
deriving DecidableEq, Repr

/-- A fully resolved quadrant entry, the `{source, page, rotation}`
dictionaries `resolve_preset` returns and the override mappings it is
given. -/
structure QuadSpec where
  source : String
  page : String
  rotation : ℤ
deriving DecidableEq, Repr

/-- A preset (src/config.py): a description plus a table of quadrant
number → quadrant entry. -/
structure Preset where
  description : Option String
  quadrants : List (ℕ × QuadPreset)
deriving DecidableEq, Repr

/-- Model of `BUILTIN_PRESETS` (src/config.py). -/
def BUILTIN_PRESETS : List (String × Preset) :=
  [ ("standard",
      { description := some "UPS label (Q1,Q2) + notes (Q3 rotated -90°)"
        quadrants :=
          [ (1, ⟨"{input}", some "last", some 0⟩)
          , (2, ⟨"{input}", some "last", some 0⟩)
          , (3, ⟨"{input}", some "second-last", some (-90)⟩) ] })
  , ("label-only-q1-q2",
      { description := some "Just the shipping label in Q1 and Q2"
        quadrants :=
          [ (1, ⟨"{input}", some "last", some 0⟩)
          , (2, ⟨"{input}", some "last", some 0⟩) ] })
  , ("notes-q4",
      { description := some "Notes in bottom-right quadrant"
        quadrants := [ (4, ⟨"{input}", some "second-last", some 0⟩) ] })
  , ("notes-q3",
      { description := some "Notes in bottom-left quadrant, rotated -90°"
        quadrants := [ (3, ⟨"{input}", some "second-last", some (-90)⟩) ] })
  ]

namespace ConfigManager

/-- Model of `ConfigManager.get_preset` (src/config.py): user presets
are consulted first, then the built-in table. -/
def get_preset (user_presets : List (String × Preset)) (name : String) :
    Option Preset :=
  match user_presets.lookup name with
  | some p => some p
  | none => BUILTIN_PRESETS.lookup name

/-- The `{input}` placeholder substitution in `resolve_preset`. -/
def substSource (input_file source : String) : String :=
  if source = "{input}" then input_file else source

/-- The per-quadrant body of the `resolve_preset` loop: substitute the
placeholder and apply the `config.get` defaults. -/
def resolveQuadrant (input_file : String) (cfg : QuadPreset) : QuadSpec :=
  { source := substSource input_file cfg.source
    page := cfg.page.getD "last"
    rotation := cfg.rotation.getD 0 }

/-- Model of `ConfigManager.resolve_preset` (src/config.py).  Python's
`if not preset: raise ValueError(...)` is modelled by the `none` check
(an empty YAML user preset would also be falsy in Python; no claim
depends on that corner).  Preset quadrants whose number has an override
are skipped by the loop, the rest are resolved, and `result.update(overrides)`
— whose key set is disjoint from the loop's output by construction — is
the final append, read through dictionary lookup. -/
def resolve_preset (user_presets : List (String × Preset))
    (preset_name input_file : String) (overrides : List (ℕ × QuadSpec)) :
    Except String (List (ℕ × QuadSpec)) :=
  match get_preset user_presets preset_name with
  | none => .error ("Preset not found: " ++ preset_name)
  | some preset =>
    let result := preset.quadrants.filterMap fun p =>
      if (overrides.lookup p.1).isSome then none
      else some (p.1, resolveQuadrant input_file p.2)
    .ok (result ++ overrides)

end ConfigManager

/-- Claim C1: for positive image dimensions and a positive box,
`fit_to_box` follows the wider-fit-to-width / taller-fit-to-height case
split, its result fits in the box, touches the box on at least one axis,
and preserves the image's aspect ratio exactly. -/
theorem fit_to_box_correct (w h : ℕ) (pix : List (List ℕ)) (mw mh : ℚ)
    (hw : 0 < w) (hh : 0 < h) (hmw : 0 < mw) (hmh : 0 < mh) :
    ((w : ℚ) / h > mw / mh →
      (ImageProcessor.fit_to_box ⟨w, h, pix⟩ mw mh).2.1 = mw ∧
      (ImageProcessor.fit_to_box ⟨w, h, pix⟩ mw mh).2.2 = mw / ((w : ℚ) / h)) ∧
    (¬ (w : ℚ) / h > mw / mh →
      (ImageProcessor.fit_to_box ⟨w, h, pix⟩ mw mh).2.1 = mh * ((w : ℚ) / h) ∧
      (ImageProcessor.fit_to_box ⟨w, h, pix⟩ mw mh).2.2 = mh) ∧
    (ImageProcessor.fit_to_box ⟨w, h, pix⟩ mw mh).2.1 ≤ mw ∧
    (ImageProcessor.fit_to_box ⟨w, h, pix⟩ mw mh).2.2 ≤ mh ∧
    ((ImageProcessor.fit_to_box ⟨w, h, pix⟩ mw mh).2.1 = mw ∨
      (ImageProcessor.fit_to_box ⟨w, h, pix⟩ mw mh).2.2 = mh) ∧
    (ImageProcessor.fit_to_box ⟨w, h, pix⟩ mw mh).2.1 /
      (ImageProcessor.fit_to_box ⟨w, h, pix⟩ mw mh).2.2 = (w : ℚ) / h := by
  have hwq : (0 : ℚ) < (w : ℚ) := by exact_mod_cast hw
  have hhq : (0 : ℚ) < (h : ℚ) := by exact_mod_cast hh
  have ha : (0 : ℚ) < (w : ℚ) / h := div_pos hwq hhq
  by_cases hc : (w : ℚ) / h > mw / mh
  · have hr : ImageProcessor.fit_to_box ⟨w, h, pix⟩ mw mh =
        (⟨w, h, pix⟩, mw, mw / ((w : ℚ) / h)) := by
      simp only [ImageProcessor.fit_to_box, if_pos hc]
    rw [hr]
    have hlt : mw / ((w : ℚ) / h) < mh := by
      rw [div_lt_iff₀ ha]
      calc mw = mw / mh * mh := by field_simp
        _ < (w : ℚ) / h * mh := mul_lt_mul_of_pos_right hc hmh
        _ = mh * ((w : ℚ) / h) := mul_comm _ _
    refine ⟨fun _ => ⟨rfl, rfl⟩, fun hn => absurd hc hn, le_refl mw,
      le_of_lt hlt, Or.inl rfl, ?_⟩
    field_simp
    ring
  · have hr : ImageProcessor.fit_to_box ⟨w, h, pix⟩ mw mh =
        (⟨w, h, pix⟩, mh * ((w : ℚ) / h), mh) := by
      simp only [ImageProcessor.fit_to_box, if_neg hc]
    rw [hr]
    push_neg at hc
    have hle : mh * ((w : ℚ) / h) ≤ mw := by
      calc mh * ((w : ℚ) / h) ≤ mh * (mw / mh) :=
            mul_le_mul_of_nonneg_left hc (le_of_lt hmh)
        _ = mw := by field_simp
    refine ⟨fun hpos => absurd hpos (not_lt.mpr hc), fun _ => ⟨rfl, rfl⟩,
      hle, le_refl mh, Or.inr rfl, ?_⟩
    rw [mul_div_assoc]
    field_simp
    ring

/-- Concrete instantiation of claim C1: a 4×3 image in a 10×10 box. -/
theorem fit_to_box_correct_witness :
    ((4 : ℚ) / 3 > 10 / 10 →
      (ImageProcessor.fit_to_box ⟨4, 3, []⟩ 10 10).2.1 = 10 ∧
      (ImageProcessor.fit_to_box ⟨4, 3, []⟩ 10 10).2.2 = 10 / ((4 : ℚ) / 3)) ∧
    (¬ (4 : ℚ) / 3 > 10 / 10 →
      (ImageProcessor.fit_to_box ⟨4, 3, []⟩ 10 10).2.1 = 10 * ((4 : ℚ) / 3) ∧
      (ImageProcessor.fit_to_box ⟨4, 3, []⟩ 10 10).2.2 = 10) ∧
    (ImageProcessor.fit_to_box ⟨4, 3, []⟩ 10 10).2.1 ≤ 10 ∧
    (ImageProcessor.fit_to_box ⟨4, 3, []⟩ 10 10).2.2 ≤ 10 ∧
    ((ImageProcessor.fit_to_box ⟨4, 3, []⟩ 10 10).2.1 = 10 ∨
      (ImageProcessor.fit_to_box ⟨4, 3, []⟩ 10 10).2.2 = 10) ∧
    (ImageProcessor.fit_to_box ⟨4, 3, []⟩ 10 10).2.1 /
      (ImageProcessor.fit_to_box ⟨4, 3, []⟩ 10 10).2.2 = (4 : ℚ) / 3 := by
  have hcast : ((4 : ℕ) : ℚ) = (4 : ℚ) := by norm_num
  have hcast3 : ((3 : ℕ) : ℚ) = (3 : ℚ) := by norm_num
  have := fit_to_box_correct 4 3 [] 10 10 (by norm_num) (by norm_num)
    (by norm_num) (by norm_num)
  rw [hcast, hcast3] at this
  exact this

/-- Claim C2: for an engine built with any margin, the quadrant size is
306×396, `generate_pdf` assigns Q1 the selector (0,1), Q2 (1,1),
Q3 (0,0) and Q4 (1,0), and for every image, rotation and selector the
drawn lower-left corner is
`x_offset = quad_x * 306 + margin + (drawable_width - draw_width) / 2`,
`y_offset = quad_y * 396 + margin + (drawable_height - draw_height) / 2`
with `drawable = quadrant - 2 * margin`; a render with only Q1 occupied
issues exactly the draw operation at that geometry. -/
theorem draw_quadrant_placement (m : ℚ) (g : Bool) (img : Image) (rot : ℤ)
    (quad_x quad_y : ℕ) (q1 q2 q3 q4 : Option QuadrantConfig) :
    (LayoutEngine.build m g).quadrant_width = 306 ∧
    (LayoutEngine.build m g).quadrant_height = 396 ∧
    pdfSlots q1 q2 q3 q4 =
      [(1, q1, 0, 1), (2, q2, 1, 1), (3, q3, 0, 0), (4, q4, 1, 0)] ∧
    (quadGeom (LayoutEngine.build m g) img rot quad_x quad_y).x_offset =
      (quad_x : ℚ) * 306 + (LayoutEngine.build m g).margin +
        ((306 - 2 * (LayoutEngine.build m g).margin) -
          (quadGeom (LayoutEngine.build m g) img rot quad_x quad_y).draw_width) / 2 ∧
    (quadGeom (LayoutEngine.build m g) img rot quad_x quad_y).y_offset =
      (quad_y : ℚ) * 396 + (LayoutEngine.build m g).margin +
        ((396 - 2 * (LayoutEngine.build m g).margin) -
          (quadGeom (LayoutEngine.build m g) img rot quad_x quad_y).draw_height) / 2 ∧
    (generate_pdf noFailEnv (LayoutEngine.build m false)
        (some ⟨some img, rot⟩) none none none).ops =
      [CanvasOp.drawImage 0
        (quadGeom (LayoutEngine.build m false) img rot 0 1).image
        (quadGeom (LayoutEngine.build m false) img rot 0 1).x_offset
        (quadGeom (LayoutEngine.build m false) img rot 0 1).y_offset
        (quadGeom (LayoutEngine.build m false) img rot 0 1).draw_width
        (quadGeom (LayoutEngine.build m false) img rot 0 1).draw_height] := by
  refine ⟨by norm_num [LayoutEngine.build], by norm_num [LayoutEngine.build],
    rfl, ?_, ?_, rfl⟩
  · simp only [quadGeom, LayoutEngine.build]
    norm_num
  · simp only [quadGeom, LayoutEngine.build]
    norm_num

/-- Counterexample to claim C3: constructing the engine with the negative
margin −1 inch succeeds silently, returning an engine with margin −72
points; no `InvalidConfiguration` error is raised. -/
theorem init_negative_margin_succeeds :
    LayoutEngine.init (-1) true =
      Except.ok { margin := -72, show_grid := true, page_width := 612,
                  page_height := 792, quadrant_width := 306,
                  quadrant_height := 396 } := by
  norm_num [LayoutEngine.init]

/-- Claim C3 as amended: construction never fails — `__init__` performs
no margin validation, so every margin (negative or oversized included)
is accepted silently; a margin above 306/144 inches leaves a negative
drawable width in each quadrant. -/
theorem init_never_fails (m : ℚ) (g : Bool) :
    LayoutEngine.init m g = Except.ok (LayoutEngine.build m g) ∧
    (LayoutEngine.build m g).margin = 72 * m ∧
    (306 / 144 < m →
      (LayoutEngine.build m g).quadrant_width -
        2 * (LayoutEngine.build m g).margin < 0) := by
  refine ⟨rfl, by simp only [LayoutEngine.build]; ring, fun hm => ?_⟩
  simp only [LayoutEngine.build]
  norm_num
  linarith

/-- Concrete instantiation of the amended claim C3: margin 3 inches is
accepted and leaves a negative drawable width. -/
theorem init_never_fails_witness :
    LayoutEngine.init 3 true = Except.ok (LayoutEngine.build 3 true) ∧
    (LayoutEngine.build 3 true).quadrant_width -
      2 * (LayoutEngine.build 3 true).margin < 0 :=
  ⟨(init_never_fails 3 true).1,
   (init_never_fails 3 true).2.2 (by norm_num)⟩

/-- Claim C6: `rotate_image` at angle 0 is the identity on the image
value (same pixels, same dimensions); rotating a W×H image by 90 yields
an H×W bounding box and by 180 a W×H bounding box, in both cases the
exact expanded box of the rotated image (no corner clipping). -/
theorem rotate_image_dims (img : Image) :
    ImageProcessor.rotate_image img 0 = img ∧
    (ImageProcessor.rotate_image img 90).width = img.height ∧
    (ImageProcessor.rotate_image img 90).height = img.width ∧
    (ImageProcessor.rotate_image img 180).width = img.width ∧
    (ImageProcessor.rotate_image img 180).height = img.height :=
  ⟨rfl, rfl, rfl, rfl, rfl⟩

/-- Claim C10: `fit_to_box` returns the input image itself as its first
component — it never resizes or alters the image, only computes the
target draw size — and the image a quadrant draws is exactly the rotated
input, handed unscaled to the PDF draw operation together with the
separately computed target width and height. -/
theorem fit_to_box_returns_image_unchanged (img : Image) (mw mh : ℚ)
    (e : LayoutEngine) (rot : ℤ) (quad_x quad_y : ℕ) :
    (ImageProcessor.fit_to_box img mw mh).1 = img ∧
    (quadGeom e img rot quad_x quad_y).image =
      ImageProcessor.rotate_image img rot := by
  constructor
  · simp only [ImageProcessor.fit_to_box]
    split <;> rfl
  · rfl

/-- Helper: the draw loop's behaviour does not depend on the grid flag
of the engine (two engines built from the same margin). -/
theorem drawSlots_grid_flag_irrelevant (env : Env) (m : ℚ) (g g' : Bool) :
    ∀ (slots : List Slot) (s : RenderState),
      drawSlots env (LayoutEngine.build m g) slots s =
        drawSlots env (LayoutEngine.build m g') slots s := by
  intro slots
  induction slots with
  | nil => intro s; rfl
  | cons head rest ih =>
    intro s
    obtain ⟨slotNo, cfg, qx, qy⟩ := head
    cases cfg with
    | none => exact ih s
    | some c =>
      obtain ⟨cimg, crot⟩ := c
      cases cimg with
      | none => exact ih s
      | some img =>
        simp only [drawSlots]
        have hg : quadGeom (LayoutEngine.build m g) img crot qx qy =
            quadGeom (LayoutEngine.build m g') img crot qx qy := rfl
        rw [hg]
        by_cases hf : env.drawImageFails s.next
        · simp [hf]
        · simp only [hf, if_false, Bool.false_eq_true]
          exact ih _

/-- Helper: under the no-failure environment the draw loop always
completes. -/
theorem drawSlots_noFail_ok (e : LayoutEngine) :
    ∀ (slots : List Slot) (s : RenderState),
      (drawSlots noFailEnv e slots s).2 = true := by
  intro slots
  induction slots with
  | nil => intro s; rfl
  | cons head rest ih =>
    intro s
    obtain ⟨slotNo, cfg, qx, qy⟩ := head
    cases cfg with
    | none => exact ih s
    | some c =>
      obtain ⟨cimg, crot⟩ := c
      cases cimg with
      | none => exact ih s
      | some img =>
        simp only [drawSlots, noFailEnv]
        exact ih _

/-- Helper: the draw loop only ever appends image-draw operations to the
canvas trace. -/
theorem drawSlots_ops_images (env : Env) (e : LayoutEngine) :
    ∀ (slots : List Slot) (s : RenderState),
      s.ops.all CanvasOp.isDrawImage = true →
      (drawSlots env e slots s).1.ops.all CanvasOp.isDrawImage = true := by
  intro slots
  induction slots with
  | nil => intro s h; exact h
  | cons head rest ih =>
    intro s h
    obtain ⟨slotNo, cfg, qx, qy⟩ := head
    cases cfg with
    | none => exact ih s h
    | some c =>
      obtain ⟨cimg, crot⟩ := c
      cases cimg with
      | none => exact ih s h
      | some img =>
        simp only [drawSlots]
        by_cases hf : env.drawImageFails s.next
        · simp [hf, h]
        · simp only [hf, if_false, Bool.false_eq_true]
          apply ih
          simp [List.all_append, h, CanvasOp.isDrawImage]

/-- Helper: whenever the draw loop completes, it appends the same fresh
temp-file list both to the on-disk file list and to `temp_files`. -/
theorem drawSlots_fs_tempFiles (env : Env) (e : LayoutEngine) :
    ∀ (slots : List Slot) (s : RenderState),
      (drawSlots env e slots s).2 = true →
      ∃ new, (drawSlots env e slots s).1.fs = s.fs ++ new ∧
        (drawSlots env e slots s).1.tempFiles = s.tempFiles ++ new := by
  intro slots
  induction slots with
  | nil => intro s _; exact ⟨[], by simp [drawSlots], by simp [drawSlots]⟩
  | cons head rest ih =>
    intro s hok
    obtain ⟨slotNo, cfg, qx, qy⟩ := head
    cases cfg with
    | none => exact ih s hok
    | some c =>
      obtain ⟨cimg, crot⟩ := c
      cases cimg with
      | none => exact ih s hok
      | some img =>
        simp only [drawSlots] at hok ⊢
        by_cases hf : env.drawImageFails s.next
        · simp [hf] at hok
        · simp only [hf, if_false, Bool.false_eq_true] at hok ⊢
          obtain ⟨new, hfs, htf⟩ := ih _ hok
          refine ⟨s.next :: new, ?_, ?_⟩
          · rw [hfs]; simp
          · rw [htf]; simp

/-- Helper: folding filtered removal of every element of a list over
itself empties it. -/
theorem foldl_remove_self (l : List ℕ) :
    ∀ fs : List ℕ,
      List.foldl (fun fs t => fs.filter (· ≠ t)) fs l =
        fs.filter (fun x => decide (x ∉ l)) := by
  induction l with
  | nil => intro fs; simp
  | cons t rest ih =>
    intro fs
    simp only [List.foldl_cons, ih, List.filter_filter]
    apply List.filter_congr
    intro x _
    by_cases hxt : x = t <;> by_cases hxr : x ∈ rest <;>
      simp [hxt, hxr]

/-- Claim C7: for any margin and any quadrant population, a render with
the grid enabled issues exactly the trace of the grid-disabled render
followed by the light gray width-1 stroke setup and the two grid lines —
a vertical line at x = 306 spanning y ∈ [0, 792] and a horizontal line
at y = 396 spanning x ∈ [0, 612] — and the grid-disabled trace consists
of image draws only (no lines are ever drawn without the grid). -/
theorem grid_lines_drawn (m : ℚ) (q1 q2 q3 q4 : Option QuadrantConfig) :
    (generate_pdf noFailEnv (LayoutEngine.build m true) q1 q2 q3 q4).ops =
      (generate_pdf noFailEnv (LayoutEngine.build m false) q1 q2 q3 q4).ops ++
        [CanvasOp.setStrokeColorRGB (8/10) (8/10) (8/10),
         CanvasOp.setLineWidth 1,
         CanvasOp.line 306 0 306 792,
         CanvasOp.line 0 396 612 396] ∧
    (generate_pdf noFailEnv (LayoutEngine.build m false) q1 q2 q3 q4).ops.all
      CanvasOp.isDrawImage = true := by
  have hok := drawSlots_noFail_ok (LayoutEngine.build m false)
    (pdfSlots q1 q2 q3 q4) initialRenderState
  rcases hds : drawSlots noFailEnv (LayoutEngine.build m false)
      (pdfSlots q1 q2 q3 q4) initialRenderState with ⟨s, ok⟩
  rw [hds] at hok
  simp only at hok
  subst hok
  have hds' : drawSlots noFailEnv (LayoutEngine.build m true)
      (pdfSlots q1 q2 q3 q4) initialRenderState = (s, true) := by
    rw [drawSlots_grid_flag_irrelevant noFailEnv m true false, hds]
  have hgrid : gridOps (LayoutEngine.build m true) =
      [CanvasOp.setStrokeColorRGB (8/10) (8/10) (8/10),
       CanvasOp.setLineWidth 1,
       CanvasOp.line 306 0 306 792,
       CanvasOp.line 0 396 612 396] := by
    simp only [gridOps, LayoutEngine.build]
    norm_num
  constructor
  · simp only [generate_pdf]
    rw [hds, hds']
    norm_num [LayoutEngine.build, noFailEnv, gridOps]
  · have hall := drawSlots_ops_images noFailEnv (LayoutEngine.build m false)
      (pdfSlots q1 q2 q3 q4) initialRenderState (by rfl)
    rw [hds] at hall
    simp only [generate_pdf]
    rw [hds]
    simpa [LayoutEngine.build, noFailEnv] using hall

/-- Claim C8: for every quadrant Q, the geometry recorded for Q by a
successful render is a function of the engine and Q's own image and
rotation alone: it equals `quadGeom e img rot quad_x quad_y` at Q's
selector — (0,1) for Q1, (1,1) for Q2, (0,0) for Q3, (1,0) for Q4 —
whatever the other three quadrants hold, and two renders that differ
only in the other three quadrants' contents record identical geometry
for Q. -/
theorem quadrant_geometry_independent (e : LayoutEngine) (img : Image)
    (rot : ℤ) (q1 q2 q3 q4 q1' q2' q3' q4' : Option QuadrantConfig) :
    (List.lookup 1
        (generate_pdf noFailEnv e (some ⟨some img, rot⟩) q2 q3 q4).geoms =
      some (quadGeom e img rot 0 1) ∧
     List.lookup 1
        (generate_pdf noFailEnv e (some ⟨some img, rot⟩) q2 q3 q4).geoms =
      List.lookup 1
        (generate_pdf noFailEnv e (some ⟨some img, rot⟩) q2' q3' q4').geoms) ∧
    (List.lookup 2
        (generate_pdf noFailEnv e q1 (some ⟨some img, rot⟩) q3 q4).geoms =
      some (quadGeom e img rot 1 1) ∧
     List.lookup 2
        (generate_pdf noFailEnv e q1 (some ⟨some img, rot⟩) q3 q4).geoms =
      List.lookup 2
        (generate_pdf noFailEnv e q1' (some ⟨some img, rot⟩) q3' q4').geoms) ∧
    (List.lookup 3
        (generate_pdf noFailEnv e q1 q2 (some ⟨some img, rot⟩) q4).geoms =
      some (quadGeom e img rot 0 0) ∧
     List.lookup 3
        (generate_pdf noFailEnv e q1 q2 (some ⟨some img, rot⟩) q4).geoms =
      List.lookup 3
        (generate_pdf noFailEnv e q1' q2' (some ⟨some img, rot⟩) q4').geoms) ∧
    (List.lookup 4
        (generate_pdf noFailEnv e q1 q2 q3 (some ⟨some img, rot⟩)).geoms =
      some (quadGeom e img rot 1 0) ∧
     List.lookup 4
        (generate_pdf noFailEnv e q1 q2 q3 (some ⟨some img, rot⟩)).geoms =
      List.lookup 4
        (generate_pdf noFailEnv e q1' q2' q3' (some ⟨some img, rot⟩)).geoms) := by
  have key1 : ∀ (a b c : Option QuadrantConfig),
      List.lookup 1
          (generate_pdf noFailEnv e (some ⟨some img, rot⟩) a b c).geoms =
        some (quadGeom e img rot 0 1) := by
    intro a b c
    rcases a with _ | ⟨_ | aimg, ar⟩ <;> rcases b with _ | ⟨_ | bimg, br⟩ <;>
      rcases c with _ | ⟨_ | cimg, cr⟩ <;>
      · simp [generate_pdf, drawSlots, noFailEnv, pdfSlots, initialRenderState]
        split <;> simp [List.lookup]
  have key2 : ∀ (a b c : Option QuadrantConfig),
      List.lookup 2
          (generate_pdf noFailEnv e a (some ⟨some img, rot⟩) b c).geoms =
        some (quadGeom e img rot 1 1) := by
    intro a b c
    rcases a with _ | ⟨_ | aimg, ar⟩ <;> rcases b with _ | ⟨_ | bimg, br⟩ <;>
      rcases c with _ | ⟨_ | cimg, cr⟩ <;>
      · simp [generate_pdf, drawSlots, noFailEnv, pdfSlots, initialRenderState]
        split <;> simp [List.lookup]
  have key3 : ∀ (a b c : Option QuadrantConfig),
      List.lookup 3
          (generate_pdf noFailEnv e a b (some ⟨some img, rot⟩) c).geoms =
        some (quadGeom e img rot 0 0) := by
    intro a b c
    rcases a with _ | ⟨_ | aimg, ar⟩ <;> rcases b with _ | ⟨_ | bimg, br⟩ <;>
      rcases c with _ | ⟨_ | cimg, cr⟩ <;>
      · simp [generate_pdf, drawSlots, noFailEnv, pdfSlots, initialRenderState]
        split <;> simp [List.lookup]
  have key4 : ∀ (a b c : Option QuadrantConfig),
      List.lookup 4
          (generate_pdf noFailEnv e a b c (some ⟨some img, rot⟩)).geoms =
        some (quadGeom e img rot 1 0) := by
    intro a b c
    rcases a with _ | ⟨_ | aimg, ar⟩ <;> rcases b with _ | ⟨_ | bimg, br⟩ <;>
      rcases c with _ | ⟨_ | cimg, cr⟩ <;>
      · simp [generate_pdf, drawSlots, noFailEnv, pdfSlots, initialRenderState]
        split <;> simp [List.lookup]
  exact ⟨⟨key1 q2 q3 q4, (key1 q2 q3 q4).trans (key1 q2' q3' q4').symm⟩,
    ⟨key2 q1 q3 q4, (key2 q1 q3 q4).trans (key2 q1' q3' q4').symm⟩,
    ⟨key3 q1 q2 q4, (key3 q1 q2 q4).trans (key3 q1' q2' q4').symm⟩,
    ⟨key4 q1 q2 q3, (key4 q1 q2 q3).trans (key4 q1' q2' q3').symm⟩⟩

/-- Counterexample to claim C4: a render with Q1 and Q2 occupied in
which the second `c.drawImage` raises returns on the draw-failure exit
path with both temporary files (0 and 1) still on disk — the cleanup
loop is only reached on the success path. -/
theorem temp_file_leak_on_draw_failure :
    (generate_pdf failSecondDrawEnv (LayoutEngine.build 0 false)
        (some ⟨some ⟨4, 3, []⟩, 0⟩) (some ⟨some ⟨4, 3, []⟩, 0⟩)
        none none).outcome = RenderOutcome.drawRaised ∧
    (generate_pdf failSecondDrawEnv (LayoutEngine.build 0 false)
        (some ⟨some ⟨4, 3, []⟩, 0⟩) (some ⟨some ⟨4, 3, []⟩, 0⟩)
        none none).fs = [0, 1] := ⟨rfl, rfl⟩

/-- Claim C4 as amended: temporary files are removed only on the
successful exit path — when every draw and the final `c.save()` succeed
(and no removal fails), every temp file created during the render has
been removed when the call returns; on the draw-failure or save-failure
paths no cleanup runs (see the counterexample). -/
theorem temp_files_removed_on_success (env : Env) (e : LayoutEngine)
    (q1 q2 q3 q4 : Option QuadrantConfig)
    (hrm : ∀ t, env.removeFails t = false)
    (hok : (generate_pdf env e q1 q2 q3 q4).outcome = RenderOutcome.ok) :
    (generate_pdf env e q1 q2 q3 q4).fs = [] := by
  rcases hds : drawSlots env e (pdfSlots q1 q2 q3 q4) initialRenderState
    with ⟨s, ok⟩
  cases ok with
  | false => simp [generate_pdf, hds] at hok
  | true =>
    cases hsv : env.saveFails with
    | true => simp [generate_pdf, hds, hsv] at hok
    | false =>
      have h2 : (drawSlots env e (pdfSlots q1 q2 q3 q4)
          initialRenderState).2 = true := by rw [hds]
      obtain ⟨new, hfs, htf⟩ :=
        drawSlots_fs_tempFiles env e (pdfSlots q1 q2 q3 q4)
          initialRenderState h2
      rw [hds] at hfs htf
      simp only [initialRenderState, List.nil_append] at hfs htf
      have hstep : (fun (fs : List ℕ) (t : ℕ) =>
          if env.removeFails t then fs else fs.filter (· ≠ t)) =
          fun fs t => fs.filter (· ≠ t) := by
        funext fs t
        rw [hrm t]
        simp
      have hgridfs : ∀ (b : Bool),
          ((if b then { s with ops := s.ops ++ gridOps e } else s) :
            RenderState).fs = s.fs := by
        intro b; cases b <;> rfl
      have hgridtf : ∀ (b : Bool),
          ((if b then { s with ops := s.ops ++ gridOps e } else s) :
            RenderState).tempFiles = s.tempFiles := by
        intro b; cases b <;> rfl
      simp only [generate_pdf, hds, hsv, hgridfs, hgridtf, hstep,
        Bool.false_eq_true, if_false]
      rw [hfs, htf, foldl_remove_self]
      show List.filter (fun x => decide (x ∉ new)) new = []
      rw [List.filter_eq_nil_iff]
      intro a ha
      simp [ha]

/-- Concrete instantiation of the amended claim C4: a successful
single-quadrant render in the no-failure environment leaves no temp
files behind. -/
theorem temp_files_removed_on_success_witness :
    (generate_pdf noFailEnv (LayoutEngine.build 0 false)
        (some ⟨some ⟨4, 3, []⟩, 0⟩) none none none).fs = [] :=
  temp_files_removed_on_success noFailEnv (LayoutEngine.build 0 false)
    (some ⟨some ⟨4, 3, []⟩, 0⟩) none none none (fun _ => rfl) rfl

/-- Claim C5 (documents the code defect): on a 3-page PDF the selectors
resolve as specified — "last" the final page, "second-last" the second
from final (failing on a 1-page PDF), "0" and "1" the first page,
positive N the Nth page, negative N the (pageCount+N)th — and every
out-of-range numeric selection fails rather than returning a page; but
the error surfaced for an out-of-range number is the generic
invalid-page-specification one: the `try` body computes the descriptive
out-of-range error (tenth conjunct), which its own `except ValueError`
clause catches and replaces (last two conjuncts). -/
theorem page_selector_semantics :
    InputHandler.load_pdf_page true "d.pdf"
        [⟨1, 1, []⟩, ⟨2, 2, []⟩, ⟨3, 3, []⟩] "last" = .ok ⟨3, 3, []⟩ ∧
    InputHandler.load_pdf_page true "d.pdf"
        [⟨1, 1, []⟩, ⟨2, 2, []⟩, ⟨3, 3, []⟩] "second-last" = .ok ⟨2, 2, []⟩ ∧
    InputHandler.load_pdf_page true "d.pdf"
        [⟨1, 1, []⟩] "second-last" = .error (.noSecondLast "d.pdf") ∧
    InputHandler.load_pdf_page true "d.pdf"
        [⟨1, 1, []⟩, ⟨2, 2, []⟩, ⟨3, 3, []⟩] "0" = .ok ⟨1, 1, []⟩ ∧
    InputHandler.load_pdf_page true "d.pdf"
        [⟨1, 1, []⟩, ⟨2, 2, []⟩, ⟨3, 3, []⟩] "1" = .ok ⟨1, 1, []⟩ ∧
    InputHandler.load_pdf_page true "d.pdf"
        [⟨1, 1, []⟩, ⟨2, 2, []⟩, ⟨3, 3, []⟩] "2" = .ok ⟨2, 2, []⟩ ∧
    InputHandler.load_pdf_page true "d.pdf"
        [⟨1, 1, []⟩, ⟨2, 2, []⟩, ⟨3, 3, []⟩] "3" = .ok ⟨3, 3, []⟩ ∧
    InputHandler.load_pdf_page true "d.pdf"
        [⟨1, 1, []⟩, ⟨2, 2, []⟩, ⟨3, 3, []⟩] "-1" = .ok ⟨3, 3, []⟩ ∧
    InputHandler.load_pdf_page true "d.pdf"
        [⟨1, 1, []⟩, ⟨2, 2, []⟩, ⟨3, 3, []⟩] "-3" = .ok ⟨1, 1, []⟩ ∧
    InputHandler.pageTry
        [⟨1, 1, []⟩, ⟨2, 2, []⟩, ⟨3, 3, []⟩] "5" = .error (.outOfRange 5 3) ∧
    InputHandler.load_pdf_page true "d.pdf"
        [⟨1, 1, []⟩, ⟨2, 2, []⟩, ⟨3, 3, []⟩] "5" = .error (.invalidSpec "5" 3) ∧
    InputHandler.load_pdf_page true "d.pdf"
        [⟨1, 1, []⟩, ⟨2, 2, []⟩, ⟨3, 3, []⟩] "-4" =
      .error (.invalidSpec "-4" 3) :=
  ⟨rfl, rfl, rfl, rfl, rfl, rfl, rfl, rfl, rfl, rfl, rfl, rfl⟩

/-- Helper: a key found in the first association list is found in the
append. -/
theorem lookup_append_left (k : ℕ) (v : QuadSpec) :
    ∀ (l₁ l₂ : List (ℕ × QuadSpec)), List.lookup k l₁ = some v →
      List.lookup k (l₁ ++ l₂) = some v := by
  intro l₁
  induction l₁ with
  | nil => intro l₂ h; simp [List.lookup] at h
  | cons p rest ih =>
    intro l₂ h
    obtain ⟨a, b⟩ := p
    cases hk : (k == a) with
    | true =>
      simp [List.lookup, hk] at h ⊢
      exact h
    | false =>
      simp only [List.cons_append, List.lookup, hk] at h ⊢
      exact ih l₂ h

/-- Helper: a key absent from the first association list looks up in the
second. -/
theorem lookup_append_of_left_none (k : ℕ) :
    ∀ (l₁ l₂ : List (ℕ × QuadSpec)), List.lookup k l₁ = none →
      List.lookup k (l₁ ++ l₂) = List.lookup k l₂ := by
  intro l₁
  induction l₁ with
  | nil => intro l₂ _; rfl
  | cons p rest ih =>
    intro l₂ h
    obtain ⟨a, b⟩ := p
    cases hk : (k == a) with
    | true => simp [List.lookup, hk] at h
    | false =>
      simp only [List.cons_append, List.lookup, hk] at h ⊢
      exact ih l₂ h

/-- Helper: a preset quadrant whose number is not overridden resolves in
the kept list to its substituted-and-defaulted entry. -/
theorem lookup_kept_of_not_overridden (inp : String)
    (ov : List (ℕ × QuadSpec)) (k : ℕ) (hov : List.lookup k ov = none) :
    ∀ (qs : List (ℕ × QuadPreset)) (cfg : QuadPreset),
      List.lookup k qs = some cfg →
      List.lookup k (qs.filterMap fun p =>
          if (List.lookup p.1 ov).isSome then none
          else some (p.1, ConfigManager.resolveQuadrant inp p.2)) =
        some (ConfigManager.resolveQuadrant inp cfg) := by
  intro qs
  induction qs with
  | nil => intro cfg h; simp [List.lookup] at h
  | cons p rest ih =>
    intro cfg h
    obtain ⟨a, c⟩ := p
    cases hk : (k == a) with
    | true =>
      have hka : k = a := eq_of_beq hk
      subst hka
      simp only [List.lookup, hk] at h
      have h' : c = cfg := by exact Option.some.inj h
      subst h'
      simp [List.filterMap_cons, hov, List.lookup, hk]
    | false =>
      simp only [List.lookup, hk] at h
      cases hao : (List.lookup a ov).isSome with
      | true =>
        simp only [List.filterMap_cons, hao, if_true]
        exact ih cfg h
      | false =>
        simp only [List.filterMap_cons, hao, Bool.false_eq_true, if_false,
          List.lookup, hk]
        exact ih cfg h

/-- Helper: an overridden quadrant number never occurs in the kept
list. -/
theorem lookup_kept_of_overridden (inp : String)
    (ov : List (ℕ × QuadSpec)) (k : ℕ)
    (hov : (List.lookup k ov).isSome = true) :
    ∀ qs : List (ℕ × QuadPreset),
      List.lookup k (qs.filterMap fun p =>
          if (List.lookup p.1 ov).isSome then none
          else some (p.1, ConfigManager.resolveQuadrant inp p.2)) = none := by
  intro qs
  induction qs with
  | nil => rfl
  | cons p rest ih =>
    obtain ⟨a, c⟩ := p
    cases hao : (List.lookup a ov).isSome with
    | true =>
      simp only [List.filterMap_cons, hao, if_true]
      exact ih
    | false =>
      have hka : (k == a) = false := by
        rw [beq_eq_false_iff_ne]
        intro hkeq
        subst hkeq
        rw [hov] at hao
        cases hao
      simp only [List.filterMap_cons, hao, Bool.false_eq_true, if_false,
        List.lookup, hka]
      exact ih

/-- Claim C9: preset resolution fails with the not-found error when the
preset does not exist; otherwise any quadrant present in the overrides
carries exactly the override's entire entry in the result (never a
field-level merge), and every non-overridden preset quadrant appears as
its preset entry with only the `{input}` placeholder substituted in the
source and the `config.get` defaults for absent page/rotation fields. -/
theorem resolve_preset_correct (user : List (String × Preset))
    (name inp : String) (ov : List (ℕ × QuadSpec)) :
    (ConfigManager.get_preset user name = none →
      ConfigManager.resolve_preset user name inp ov =
        .error ("Preset not found: " ++ name)) ∧
    (∀ res, ConfigManager.resolve_preset user name inp ov = .ok res →
      ∀ k spec, List.lookup k ov = some spec →
        List.lookup k res = some spec) ∧
    (∀ res preset, ConfigManager.resolve_preset user name inp ov = .ok res →
      ConfigManager.get_preset user name = some preset →
      ∀ k cfg, List.lookup k ov = none →
        List.lookup k preset.quadrants = some cfg →
        List.lookup k res = some (ConfigManager.resolveQuadrant inp cfg)) := by
  refine ⟨?_, ?_, ?_⟩
  · intro h
    simp [ConfigManager.resolve_preset, h]
  · intro res hres k spec hov
    rcases hp : ConfigManager.get_preset user name with _ | preset
    · simp [ConfigManager.resolve_preset, hp] at hres
    · simp only [ConfigManager.resolve_preset, hp, Except.ok.injEq] at hres
      subst hres
      rw [lookup_append_of_left_none k _ ov
        (lookup_kept_of_overridden inp ov k (by simp [hov]) preset.quadrants)]
      exact hov
  · intro res preset hres hp k cfg hov hq
    simp only [ConfigManager.resolve_preset, hp, Except.ok.injEq] at hres
    subst hres
    exact lookup_append_left k _ _ ov
      (lookup_kept_of_not_overridden inp ov k hov preset.quadrants cfg hq)

/-- Concrete instantiation of claim C9: resolving a missing preset
fails; resolving "standard" with an override on quadrant 3 yields the
override entry verbatim for quadrant 3 and the preset entry for
quadrant 1 with the placeholder replaced by the input path. -/
theorem resolve_preset_correct_witness :
    ConfigManager.resolve_preset [] "nope" "in.pdf" [] =
      .error ("Preset not found: " ++ "nope") ∧
    List.lookup 3
      [(1, (⟨"in.pdf", "last", 0⟩ : QuadSpec)),
       (2, (⟨"in.pdf", "last", 0⟩ : QuadSpec)),
       (3, (⟨"note.png", "1", 0⟩ : QuadSpec))] =
      some (⟨"note.png", "1", 0⟩ : QuadSpec) ∧
    List.lookup 1
      [(1, (⟨"in.pdf", "last", 0⟩ : QuadSpec)),
       (2, (⟨"in.pdf", "last", 0⟩ : QuadSpec)),
       (3, (⟨"note.png", "1", 0⟩ : QuadSpec))] =
      some (ConfigManager.resolveQuadrant "in.pdf"
        ⟨"{input}", some "last", some 0⟩) :=
  ⟨(resolve_preset_correct [] "nope" "in.pdf" []).1 rfl,
   (resolve_preset_correct [] "standard" "in.pdf"
      [(3, ⟨"note.png", "1", 0⟩)]).2.1
     [(1, ⟨"in.pdf", "last", 0⟩), (2, ⟨"in.pdf", "last", 0⟩),
      (3, ⟨"note.png", "1", 0⟩)] rfl 3 ⟨"note.png", "1", 0⟩ rfl,
   (resolve_preset_correct [] "standard" "in.pdf"
      [(3, ⟨"note.png", "1", 0⟩)]).2.2
     [(1, ⟨"in.pdf", "last", 0⟩), (2, ⟨"in.pdf", "last", 0⟩),
      (3, ⟨"note.png", "1", 0⟩)]
     { description := some "UPS label (Q1,Q2) + notes (Q3 rotated -90°)"
       quadrants :=
        [ (1, ⟨"{input}", some "last", some 0⟩)
        , (2, ⟨"{input}", some "last", some 0⟩)
        , (3, ⟨"{input}", some "second-last", some (-90)⟩) ] }
     rfl rfl 1 ⟨"{input}", some "last", some 0⟩ rfl rfl⟩
